import Mathlib

/-!
Shallow embedding of `examples/openshift/scripts/docling_module/processor.py`
(docling PDF processor facade).

The Python module wraps the external `docling` conversion library.  The
embedding models:

* `DocumentConfig`, `ProcessingResult` — the two dataclasses, field by field.
* `DoclingPDFProcessor` — the processor object, with its `_config` and
  `_converter` fields; the converter is modelled by the configuration data
  the code puts into it (`PdfPipelineOptions` inside a `PdfFormatOption`
  inside a `DocumentConverter`), since the external behaviour behind it is
  an oracle.
* The external world (filesystem and the docling converter) is a `World`
  record of oracles; fallible Python calls are `Except PyError`.
* Python exceptions are `PyError` values carrying the exception class name,
  `str(e)`, and the string `traceback.format_exc()` would produce.
* `pathlib.Path.name` / `.suffix` are modelled on POSIX paths following
  CPython's rule (`name.rfind('.')`, suffix nonempty only when the dot is
  neither first nor last), and ASCII lower-casing models `str.lower`.
-/

/-- Python exception value: class name, message (str(e)) and the traceback
string that `traceback.format_exc()` yields at the catch site. -/
structure PyError where
  kind : String
  msg : String
  traceback : String
deriving DecidableEq, Repr

/-- Build a Python `ValueError` (as raised by the module itself; the
traceback component is irrelevant for those raises). -/
def PyError.valueError (m : String) : PyError :=
  { kind := "ValueError", msg := m, traceback := "" }

/-- Numeric score type standing for the Python float `confidence_score`
(the module only passes it through, never computes with it). -/
abbrev Score := Rat

/-- Values that can appear in the metadata dict built by
`_extract_metadata`. -/
inductive PyVal where
  | vStr (s : String)
  | vNat (n : Nat)
  | vScore (q : Score)
deriving DecidableEq, Repr

/-- The `Dict[str, Any]` metadata mapping, as an association list in
insertion order. -/
abbrev Metadata := List (String × PyVal)

/-- `ProcessingResult` dataclass from processor.py. -/
structure ProcessingResult where
  success : Bool
  content : String
  json_content : String
  metadata : Metadata
  error_message : Option String
  file_path : String
deriving DecidableEq, Repr

/-- `DocumentConfig` dataclass from processor.py, with its Python field
defaults. -/
structure DocumentConfig where
  extract_tables : Bool := true
  extract_images : Bool := true
  ocr_enabled : Bool := false
  max_pages : Option Int := none
  pdf_backend : String := "dlparse_v4"
  image_export_mode : String := "embedded"
  table_mode : String := "accurate"
  num_threads : Int := 4
  timeout_per_document : Int := 300
  ocr_engine : String := "rapidocr"
  force_ocr : Bool := false
  enrich_code : Bool := false
  enrich_formula : Bool := false
  enrich_picture_classes : Bool := false
  enrich_picture_description : Bool := false
  accelerator_device : String := "cpu"
deriving DecidableEq, Repr

/-- docling `AcceleratorDevice` enum members used by the module. -/
inductive AcceleratorDevice where
  | AUTO
  | CPU
  | CUDA
deriving DecidableEq, Repr

/-- docling `AcceleratorOptions` as populated by `_initialize_converter`. -/
structure AcceleratorOptions where
  num_threads : Int
  device : AcceleratorDevice
deriving DecidableEq, Repr

/-- The OCR options object selected by the engine dispatch in
`_initialize_converter` (each constructor records `force_full_page_ocr`). -/
inductive OcrOptions where
  | rapidOcr (force_full_page_ocr : Bool)
  | tesserOcr (force_full_page_ocr : Bool)
  | tesseractCli (force_full_page_ocr : Bool)
deriving DecidableEq, Repr

/-- docling `PdfPipelineOptions`, restricted to the fields
`_initialize_converter` sets.  `ocr_options` is `none` when the code leaves
the library default untouched (OCR disabled). -/
structure PdfPipelineOptions where
  do_table_structure : Bool
  do_ocr : Bool
  generate_page_images : Bool
  do_cell_matching : Bool
  document_timeout : Int
  do_code_enrichment : Bool
  do_formula_enrichment : Bool
  do_picture_classification : Bool
  do_picture_description : Bool
  accelerator_options : AcceleratorOptions
  ocr_options : Option OcrOptions
deriving DecidableEq, Repr

/-- docling `PdfFormatOption`: pipeline options plus the backend and
pipeline class the module always passes (recorded by name). -/
structure PdfFormatOption where
  pipeline_options : PdfPipelineOptions
  backend : String := "DoclingParseV4DocumentBackend"
  pipeline_cls : String := "StandardPdfPipeline"
deriving DecidableEq, Repr

/-- docling `DocumentConverter`, modelled by the single PDF format option
the module configures it with. -/
structure DocumentConverter where
  pdf_format_option : PdfFormatOption
deriving DecidableEq, Repr

/-- docling_core `ImageRefMode` string enum. -/
inductive ImageRefMode where
  | placeholder
  | embedded
  | referenced
deriving DecidableEq, Repr

/-- ASCII lower-casing of a character, modelling `str.lower` on the ASCII
strings the module compares. -/
def lowerChar (c : Char) : Char :=
  if 'A' ≤ c ∧ c ≤ 'Z' then Char.ofNat (c.toNat + 32) else c

/-- ASCII lower-casing of a string (model of Python `str.lower()`). -/
def lowerStr (s : String) : String :=
  String.mk (s.data.map lowerChar)

/-- Split a character list on slashes (structural helper for the
`pathlib.Path` model). -/
def splitSlash : List Char → List (List Char)
  | [] => [[]]
  | c :: rest =>
    match splitSlash rest with
    | [] => [[]]
    | g :: gs => if c = '/' then [] :: g :: gs else (c :: g) :: gs

/-- Path components after pathlib parsing: empty segments and single-dot
segments are dropped, as pathlib does. -/
def pathComponents (p : String) : List (List Char) :=
  (splitSlash p.data).filter (fun g => !g.isEmpty && g ≠ ['.'])

/-- Model of `pathlib.Path(p).name`: the final component, or the empty
string when there is none. -/
def pathName (p : String) : String :=
  match (pathComponents p).getLast? with
  | some g => String.mk g
  | none => ""

/-- Index of the last occurrence of a dot in a character list, if any. -/
def lastDotIdx (l : List Char) : Option Nat :=
  match l.reverse.findIdx? (fun c => c = '.') with
  | some j => some (l.length - 1 - j)
  | none => none

/-- Model of `pathlib.Path(p).suffix`: CPython returns `name[i:]` for
`i = name.rfind('.')` when `0 < i < len(name) - 1`, else the empty
string. -/
def pathSuffix (p : String) : String :=
  let name := (pathName p).data
  match lastDotIdx name with
  | some i => if 0 < i && i + 1 < name.length then String.mk (name.drop i) else ""
  | none => ""

/-- The document object inside a docling conversion result, as the module
uses it: two fallible export calls, the `page_count` attribute (`none` when
absent, so that `getattr(..., 'page_count', 0)` defaults), and the optional
`metadata` attribute (already rendered by `str`). -/
structure DoclingDocument where
  markdownExport : ImageRefMode → Except PyError String
  jsonExport : Except PyError String
  pageCount : Option Nat
  docMetadata : Option String

/-- The `confidence` attribute of a conversion result: either an object or
dict carrying `mean_score`, or one carrying none (both fall back to 0.0). -/
inductive Confidence where
  | withMean (s : Score)
  | withoutMean

/-- A docling conversion result: the document plus the optional
`confidence` attribute. -/
structure DoclingResult where
  document : DoclingDocument
  confidence : Option Confidence

/-- The external world: filesystem predicates, `stat().st_size`,
`glob("*.pdf")` enumeration, and the docling converter call.  Fallible
calls return `Except PyError`. -/
structure World where
  pathExists : String → Bool
  isFile : String → Bool
  isDir : String → Bool
  statSize : String → Except PyError Nat
  pdfGlob : String → List String
  convert : DocumentConverter → String → Except PyError DoclingResult

/-- `ImageRefMode(value)` enum construction: raises `ValueError` on any
string that is not a member value. -/
def ImageRefMode.ofString (s : String) : Except PyError ImageRefMode :=
  if s = "placeholder" then .ok .placeholder
  else if s = "embedded" then .ok .embedded
  else if s = "referenced" then .ok .referenced
  else .error (PyError.valueError ("'" ++ s ++ "' is not a valid ImageRefMode"))

/-- `DoclingPDFProcessor._initialize_converter`: pure translation of the
config into converter options; raises `ValueError` on an unknown OCR engine
when OCR is enabled. -/
def initialize_converter (c : DocumentConfig) : Except PyError DocumentConverter :=
  let device :=
    if lowerStr c.accelerator_device = "auto" then AcceleratorDevice.AUTO
    else if lowerStr c.accelerator_device = "cpu" then AcceleratorDevice.CPU
    else if lowerStr c.accelerator_device = "gpu" then AcceleratorDevice.CUDA
    else AcceleratorDevice.AUTO
  let ocrStep : Except PyError (Option OcrOptions) :=
    if c.ocr_enabled then
      let engine := lowerStr c.ocr_engine
      if engine = "rapidocr" then .ok (some (OcrOptions.rapidOcr c.force_ocr))
      else if engine = "tesserocr" then .ok (some (OcrOptions.tesserOcr c.force_ocr))
      else if engine = "tesseract" then .ok (some (OcrOptions.tesseractCli c.force_ocr))
      else .error (PyError.valueError
        ("Unknown OCR engine: " ++ engine ++ ". Supported: rapidocr, tesserocr, tesseract"))
    else .ok none
  match ocrStep with
  | .error e => .error e
  | .ok ocr =>
    .ok { pdf_format_option := { pipeline_options := {
      do_table_structure := c.extract_tables
      do_ocr := c.ocr_enabled
      generate_page_images := c.extract_images
      do_cell_matching := true
      document_timeout := c.timeout_per_document
      do_code_enrichment := c.enrich_code
      do_formula_enrichment := c.enrich_formula
      do_picture_classification := c.enrich_picture_classes
      do_picture_description := c.enrich_picture_description
      accelerator_options := { num_threads := c.num_threads, device := device }
      ocr_options := ocr } } }

/-- The `DoclingPDFProcessor` object state: `_config` and `_converter`
(`_supported_extensions` is the class-level constant below). -/
structure DoclingPDFProcessor where
  _config : DocumentConfig
  _converter : DocumentConverter
deriving DecidableEq, Repr

/-- The class-level constant `self._supported_extensions = ['.pdf']`. -/
def supported_extensions : List String := [".pdf"]

/-- `DoclingPDFProcessor.__init__`: defaults the config when `None`, then
initializes the converter (which can raise). -/
def DoclingPDFProcessor.init (config : Option DocumentConfig) :
    Except PyError DoclingPDFProcessor :=
  let cfg := match config with
    | some c => c
    | none => {}
  match initialize_converter cfg with
  | .error e => .error e
  | .ok conv => .ok { _config := cfg, _converter := conv }

/-- `DoclingPDFProcessor.validate_file`: exists, is a regular file, and has
a supported extension (suffix lower-cased). -/
def DoclingPDFProcessor.validate_file (w : World) (file_path : String) : Bool :=
  if !(w.pathExists file_path) then false
  else if !(w.isFile file_path) then false
  else if !(supported_extensions.contains (lowerStr (pathSuffix file_path))) then false
  else true

/-- `DoclingPDFProcessor._extract_metadata`: builds the metadata dict; the
`stat()` call can raise (propagated to `process`'s handler). -/
def extract_metadata (w : World) (r : DoclingResult) (file_path : String) :
    Except PyError Metadata :=
  match w.statSize file_path with
  | .error e => .error e
  | .ok sz =>
    let confidence_score : Score :=
      match r.confidence with
      | some (Confidence.withMean s) => s
      | some Confidence.withoutMean => 0
      | none => 0
    let base : Metadata :=
      [("file_name", PyVal.vStr (pathName file_path)),
       ("file_size", PyVal.vNat sz),
       ("file_extension", PyVal.vStr (pathSuffix file_path)),
       ("file_path", PyVal.vStr file_path),
       ("num_pages", PyVal.vNat (r.document.pageCount.getD 0)),
       ("confidence_score", PyVal.vScore confidence_score)]
    match r.document.docMetadata with
    | some dm => .ok (base ++ [("document_metadata", PyVal.vStr dm)])
    | none => .ok base

/-- The body of the `try` block in `DoclingPDFProcessor.process`: the
early `return` on validation failure, then the fallible external calls in
source order. -/
def processBody (w : World) (p : DoclingPDFProcessor) (file_path : String) :
    Except PyError ProcessingResult :=
  if !(DoclingPDFProcessor.validate_file w file_path) then
    .ok { success := false, content := "", json_content := "", metadata := [],
          error_message := some "Invalid file", file_path := file_path }
  else
    match w.convert p._converter file_path with
    | .error e => .error e
    | .ok result =>
      match ImageRefMode.ofString p._config.image_export_mode with
      | .error e => .error e
      | .ok mode =>
        match result.document.markdownExport mode with
        | .error e => .error e
        | .ok markdown_content =>
          match result.document.jsonExport with
          | .error e => .error e
          | .ok json_content_str =>
            match extract_metadata w result file_path with
            | .error e => .error e
            | .ok metadata =>
              .ok { success := true, content := markdown_content,
                    json_content := json_content_str, metadata := metadata,
                    error_message := none, file_path := file_path }

/-- `DoclingPDFProcessor.process`: the try body with the catch-all handler
that turns any exception into a failure result carrying the formatted
message and traceback. -/
def DoclingPDFProcessor.process (w : World) (p : DoclingPDFProcessor)
    (file_path : String) : ProcessingResult :=
  match processBody w p file_path with
  | .ok r => r
  | .error e =>
    { success := false, content := "", json_content := "", metadata := [],
      error_message := some ("Error processing " ++ file_path ++ ": " ++ e.msg
        ++ "\nTraceback: " ++ e.traceback),
      file_path := file_path }

/-- `DoclingPDFProcessor.process_directory`: raises `ValueError` when the
directory is missing or not a directory, else maps `process` over the
`*.pdf` glob in enumeration order. -/
def DoclingPDFProcessor.process_directory (w : World) (p : DoclingPDFProcessor)
    (directory_path : String) : Except PyError (List ProcessingResult) :=
  if !(w.pathExists directory_path) || !(w.isDir directory_path) then
    .error (PyError.valueError
      ("Directory " ++ directory_path ++ " does not exist or is not a directory"))
  else
    .ok ((w.pdfGlob directory_path).map (fun f => DoclingPDFProcessor.process w p f))

/-- `DoclingPDFProcessor.get_config`. -/
def DoclingPDFProcessor.get_config (p : DoclingPDFProcessor) : DocumentConfig :=
  p._config

/-- `DoclingPDFProcessor.update_config`: assigns `_config` first, then
reinitializes the converter.  The pair is the post-call object state
together with the exception, if one was raised by the reinitialization
(Python mutates `self._config` before the raise). -/
def DoclingPDFProcessor.update_config (p : DoclingPDFProcessor)
    (config : DocumentConfig) : DoclingPDFProcessor × Option PyError :=
  match initialize_converter config with
  | .ok conv => ({ _config := config, _converter := conv }, none)
  | .error e => ({ _config := config, _converter := p._converter }, some e)

/-- `docling_process` facade: builds a processor (construction can raise)
and processes the single file. -/
def docling_process (w : World) (file_path : String)
    (config : Option DocumentConfig) : Except PyError ProcessingResult :=
  match DoclingPDFProcessor.init config with
  | .error e => .error e
  | .ok p => .ok (DoclingPDFProcessor.process w p file_path)

/-- Sanity of the pathlib model on concrete paths (suffix of a plain pdf,
case preserved, leading-dot and trailing-dot names, nested name). -/
theorem path_model_sanity :
    pathSuffix "a.pdf" = ".pdf" ∧ pathSuffix "dir/x.PDF" = ".PDF" ∧
    lowerStr ".PDF" = ".pdf" ∧ pathSuffix ".pdf" = "" ∧
    pathSuffix "b." = "" ∧ pathName "a/b/c.pdf" = "c.pdf" := by
  decide

/-- The formatted error message built in the except branch of `process` is
never the fixed validation message (their lengths differ). -/
theorem errMsg_ne_invalid (s t u : String) :
    "Error processing " ++ s ++ ": " ++ t ++ "\nTraceback: " ++ u ≠ "Invalid file" := by
  intro h
  have h2 := congrArg String.length h
  simp only [String.length_append] at h2
  have e1 : ("Error processing " : String).length = 17 := by decide
  have e2 : (": " : String).length = 2 := by decide
  have e3 : ("\nTraceback: " : String).length = 12 := by decide
  have e4 : ("Invalid file" : String).length = 12 := by decide
  rw [e1, e2, e3, e4] at h2
  omega

/-- Shape analysis of the try-block body: every `ok` outcome is either the
invalid-file result (validation failed) or the success record. -/
theorem processBody_ok_shape (w : World) (p : DoclingPDFProcessor) (fp : String)
    (r : ProcessingResult) (h : processBody w p fp = .ok r) :
    (DoclingPDFProcessor.validate_file w fp = false ∧
      r = { success := false, content := "", json_content := "", metadata := [],
            error_message := some "Invalid file", file_path := fp }) ∨
    (DoclingPDFProcessor.validate_file w fp = true ∧ r.success = true ∧
      r.error_message = none ∧ r.file_path = fp) := by
  unfold processBody at h
  split at h
  · rename_i hv
    injection h with h
    exact Or.inl ⟨by simpa using hv, h.symm⟩
  · rename_i hv
    have hv2 : DoclingPDFProcessor.validate_file w fp = true := by simpa using hv
    split at h
    · exact Except.noConfusion h
    · split at h
      · exact Except.noConfusion h
      · split at h
        · exact Except.noConfusion h
        · split at h
          · exact Except.noConfusion h
          · split at h
            · exact Except.noConfusion h
            · injection h with h
              exact Or.inr ⟨hv2, by rw [← h], by rw [← h], by rw [← h]⟩

/-- The invariant every result returned by `process` satisfies. -/
def resultInv (r : ProcessingResult) (fp : String) : Prop :=
  (r.success = true ↔ r.error_message = none) ∧ r.file_path = fp ∧
  (r.success = false → r.content = "" ∧ r.json_content = "" ∧ r.metadata = [])

/-- Every `process` call satisfies `resultInv` (helper shared by the
invariant and branch theorems). -/
theorem process_inv (w : World) (p : DoclingPDFProcessor) (fp : String) :
    resultInv (DoclingPDFProcessor.process w p fp) fp := by
  unfold DoclingPDFProcessor.process
  split
  · rename_i r heq
    rcases processBody_ok_shape w p fp r heq with ⟨_, hr⟩ | ⟨_, hs, he, hfp⟩
    · subst hr
      exact ⟨by simp, rfl, fun _ => ⟨rfl, rfl, rfl⟩⟩
    · refine ⟨by rw [hs, he]; simp, hfp, fun hfalse => ?_⟩
      rw [hs] at hfalse
      exact Bool.noConfusion hfalse
  · exact ⟨by simp, rfl, fun _ => ⟨rfl, rfl, rfl⟩⟩

/-- C1: `process` never lets an exception escape: whenever the try body
raises, the call returns a `success=false` result whose `error_message` is
the formatted string containing the file path, the exception text and the
full traceback, with content, json_content and metadata all empty. -/
theorem process_catches_all_exceptions (w : World) (p : DoclingPDFProcessor)
    (file_path : String) (e : PyError)
    (h : processBody w p file_path = .error e) :
    DoclingPDFProcessor.process w p file_path =
      { success := false, content := "", json_content := "", metadata := [],
        error_message := some ("Error processing " ++ file_path ++ ": " ++ e.msg
          ++ "\nTraceback: " ++ e.traceback),
        file_path := file_path } := by
  unfold DoclingPDFProcessor.process
  rw [h]

/-- C2: `validate_file` is true exactly when the path exists, is a regular
file and its lower-cased suffix is ".pdf", and `process` returns the fixed
"Invalid file" failure result (empty content, json and metadata) exactly
when `validate_file` is false. -/
theorem validate_file_pure_and_invalid_branch (w : World) (p : DoclingPDFProcessor)
    (fp : String) :
    (DoclingPDFProcessor.validate_file w fp = true ↔
      (w.pathExists fp = true ∧ w.isFile fp = true ∧ lowerStr (pathSuffix fp) = ".pdf")) ∧
    (DoclingPDFProcessor.process w p fp =
        { success := false, content := "", json_content := "", metadata := [],
          error_message := some "Invalid file", file_path := fp }
      ↔ DoclingPDFProcessor.validate_file w fp = false) := by
  constructor
  · unfold DoclingPDFProcessor.validate_file
    cases hE : w.pathExists fp <;> cases hF : w.isFile fp <;>
      simp [supported_extensions, List.contains_cons]
  · constructor
    · intro h
      cases hval : DoclingPDFProcessor.validate_file w fp with
      | false => rfl
      | true =>
        exfalso
        rcases hb : processBody w p fp with e | r
        · have hp : DoclingPDFProcessor.process w p fp =
              { success := false, content := "", json_content := "", metadata := [],
                error_message := some ("Error processing " ++ fp ++ ": " ++ e.msg
                  ++ "\nTraceback: " ++ e.traceback), file_path := fp } := by
            unfold DoclingPDFProcessor.process
            rw [hb]
          rw [hp] at h
          have hmsg := congrArg ProcessingResult.error_message h
          simp only [Option.some.injEq] at hmsg
          exact errMsg_ne_invalid fp e.msg e.traceback hmsg
        · have hp : DoclingPDFProcessor.process w p fp = r := by
            unfold DoclingPDFProcessor.process
            rw [hb]
          rw [hp] at h
          rcases processBody_ok_shape w p fp r hb with ⟨hf, _⟩ | ⟨_, hs, _, _⟩
          · rw [hval] at hf
            exact Bool.noConfusion hf
          · rw [h] at hs
            exact Bool.noConfusion hs
    · intro hv
      unfold DoclingPDFProcessor.process processBody
      simp [hv]

/-- C9: every result produced by `process` (directly, through
`docling_process`, or as an element of a `process_directory` batch)
satisfies: success iff no error message, `file_path` equals the input path,
and failures carry empty content, json and metadata. -/
theorem process_result_invariant (w : World) (p : DoclingPDFProcessor)
    (fp dir : String) (cfg : Option DocumentConfig) :
    resultInv (DoclingPDFProcessor.process w p fp) fp ∧
    (∀ r, docling_process w fp cfg = .ok r → resultInv r fp) ∧
    (∀ res, DoclingPDFProcessor.process_directory w p dir = .ok res →
      ∀ r ∈ res, ∃ f, f ∈ w.pdfGlob dir ∧ r = DoclingPDFProcessor.process w p f ∧
        resultInv r f) := by
  refine ⟨process_inv w p fp, ?_, ?_⟩
  · intro r h
    unfold docling_process at h
    split at h
    · exact Except.noConfusion h
    · injection h with h
      rw [← h]
      exact process_inv w _ fp
  · intro res h r hr
    unfold DoclingPDFProcessor.process_directory at h
    split at h
    · exact Except.noConfusion h
    · injection h with h
      rw [← h] at hr
      rcases List.mem_map.mp hr with ⟨f, hf, hfr⟩
      exact ⟨f, hf, hfr.symm, hfr ▸ process_inv w p f⟩

/-- C4: on an existing directory, `process_directory` is exactly the
non-concurrent map of `process` over the `*.pdf` glob in enumeration
order, so it yields one result per matching file, and the count is
invariant under any permutation of the enumeration order. -/
theorem process_directory_count (w : World) (p : DoclingPDFProcessor) (dir : String)
    (h1 : w.pathExists dir = true) (h2 : w.isDir dir = true) :
    DoclingPDFProcessor.process_directory w p dir
      = .ok ((w.pdfGlob dir).map (fun f => DoclingPDFProcessor.process w p f)) ∧
    (∀ res, DoclingPDFProcessor.process_directory w p dir = .ok res →
      res.length = (w.pdfGlob dir).length) ∧
    (∀ w2 : World, ∀ p2 : DoclingPDFProcessor, ∀ dir2 : String,
      w2.pathExists dir2 = true → w2.isDir dir2 = true →
      List.Perm (w2.pdfGlob dir2) (w.pdfGlob dir) →
      ∀ res res2, DoclingPDFProcessor.process_directory w p dir = .ok res →
        DoclingPDFProcessor.process_directory w2 p2 dir2 = .ok res2 →
        res2.length = res.length) := by
  have hmain : DoclingPDFProcessor.process_directory w p dir
      = .ok ((w.pdfGlob dir).map (fun f => DoclingPDFProcessor.process w p f)) := by
    unfold DoclingPDFProcessor.process_directory
    simp [h1, h2]
  refine ⟨hmain, ?_, ?_⟩
  · intro res h
    rw [hmain] at h
    injection h with h
    rw [← h]
    exact List.length_map _ _
  · intro w2 p2 dir2 g1 g2 hperm res res2 hr hr2
    have hmain2 : DoclingPDFProcessor.process_directory w2 p2 dir2
        = .ok ((w2.pdfGlob dir2).map (fun f => DoclingPDFProcessor.process w2 p2 f)) := by
      unfold DoclingPDFProcessor.process_directory
      simp [g1, g2]
    rw [hmain] at hr
    rw [hmain2] at hr2
    injection hr with hr
    injection hr2 with hr2
    rw [← hr, ← hr2, List.length_map, List.length_map]
    exact hperm.length_eq

/-- C5: `process_directory` raises exactly when the directory is missing or
not a directory, and what it raises is the `ValueError` carrying the
directory path (never an empty list, never a failed result). -/
theorem process_directory_raises (w : World) (p : DoclingPDFProcessor) (dir : String) :
    (¬(w.pathExists dir = true ∧ w.isDir dir = true) →
      DoclingPDFProcessor.process_directory w p dir =
        .error (PyError.valueError
          ("Directory " ++ dir ++ " does not exist or is not a directory"))) ∧
    ((∃ e, DoclingPDFProcessor.process_directory w p dir = .error e) ↔
      ¬(w.pathExists dir = true ∧ w.isDir dir = true)) := by
  have herr : ¬(w.pathExists dir = true ∧ w.isDir dir = true) →
      DoclingPDFProcessor.process_directory w p dir =
        .error (PyError.valueError
          ("Directory " ++ dir ++ " does not exist or is not a directory")) := by
    intro h
    unfold DoclingPDFProcessor.process_directory
    cases hE : w.pathExists dir with
    | false => simp
    | true =>
      cases hD : w.isDir dir with
      | false => simp
      | true => exact absurd ⟨hE, hD⟩ h
  refine ⟨herr, ?_, ?_⟩
  · rintro ⟨e, he⟩ ⟨hE, hD⟩
    unfold DoclingPDFProcessor.process_directory at he
    rw [hE, hD] at he
    simp at he
  · intro h
    exact ⟨_, herr h⟩

/-- C7: config round trip — a config accepted at construction is returned
unchanged by `get_config`, both after `__init__` and after any
`update_config` with it. -/
theorem config_round_trip (c : DocumentConfig) (p : DoclingPDFProcessor)
    (h : DoclingPDFProcessor.init (some c) = .ok p) :
    DoclingPDFProcessor.get_config p = c ∧
    ∀ q : DoclingPDFProcessor,
      DoclingPDFProcessor.get_config (DoclingPDFProcessor.update_config q c).1 = c := by
  constructor
  · have h2 : (match initialize_converter c with
        | .error e => (.error e : Except PyError DoclingPDFProcessor)
        | .ok conv => .ok { _config := c, _converter := conv }) = .ok p := h
    rcases hI : initialize_converter c with e | conv
    · rw [hI] at h2
      exact Except.noConfusion h2
    · rw [hI] at h2
      injection h2 with h2
      rw [← h2]
      rfl
  · intro q
    unfold DoclingPDFProcessor.update_config DoclingPDFProcessor.get_config
    split <;> rfl

/-- C8: `update_config` is not atomic on error — when reinitialization of
the converter raises, the exception is reported while the stored config is
already the new one and the converter is still the previous one. -/
theorem update_config_not_atomic (p : DoclingPDFProcessor) (c : DocumentConfig)
    (e : PyError) (h : initialize_converter c = .error e) :
    DoclingPDFProcessor.update_config p c =
      ({ _config := c, _converter := p._converter }, some e) ∧
    DoclingPDFProcessor.get_config (DoclingPDFProcessor.update_config p c).1 = c ∧
    (DoclingPDFProcessor.update_config p c).1._converter = p._converter := by
  have hu : DoclingPDFProcessor.update_config p c =
      ({ _config := c, _converter := p._converter }, some e) := by
    unfold DoclingPDFProcessor.update_config
    rw [h]
  refine ⟨hu, ?_, ?_⟩
  · rw [hu]
    rfl
  · rw [hu]

/-- C3 (amended): when OCR is enabled, an unrecognized OCR engine name
(lower-cased) makes construction fail deterministically with the
`ValueError`; conversion is never attempted (construction is pure config
translation in this module). -/
theorem construction_rejects_unknown_engine_when_ocr_enabled (c : DocumentConfig)
    (h1 : c.ocr_enabled = true)
    (h2 : lowerStr c.ocr_engine ∉ (["rapidocr", "tesserocr", "tesseract"] : List String)) :
    DoclingPDFProcessor.init (some c) = .error (PyError.valueError
      ("Unknown OCR engine: " ++ lowerStr c.ocr_engine
        ++ ". Supported: rapidocr, tesserocr, tesseract")) := by
  have n1 : ¬(lowerStr c.ocr_engine = "rapidocr") := fun hx => h2 (by rw [hx]; simp)
  have n2 : ¬(lowerStr c.ocr_engine = "tesserocr") := fun hx => h2 (by rw [hx]; simp)
  have n3 : ¬(lowerStr c.ocr_engine = "tesseract") := fun hx => h2 (by rw [hx]; simp)
  unfold DoclingPDFProcessor.init initialize_converter
  simp [h1, n1, n2, n3]

/-- C10 (amended): an unrecognized accelerator device never makes
construction fail by itself — whenever the OCR side of the config is
acceptable, construction succeeds and the device silently falls back to
AUTO. -/
theorem unknown_device_falls_back_to_auto (c : DocumentConfig)
    (hdev : lowerStr c.accelerator_device ∉ (["auto", "cpu", "gpu"] : List String))
    (hocr : c.ocr_enabled = false ∨
      lowerStr c.ocr_engine ∈ (["rapidocr", "tesserocr", "tesseract"] : List String)) :
    Except.map (fun p : DoclingPDFProcessor =>
        p._converter.pdf_format_option.pipeline_options.accelerator_options.device)
      (DoclingPDFProcessor.init (some c)) = .ok AcceleratorDevice.AUTO := by
  have d1 : ¬(lowerStr c.accelerator_device = "auto") := fun hx => hdev (by rw [hx]; simp)
  have d2 : ¬(lowerStr c.accelerator_device = "cpu") := fun hx => hdev (by rw [hx]; simp)
  have d3 : ¬(lowerStr c.accelerator_device = "gpu") := fun hx => hdev (by rw [hx]; simp)
  unfold DoclingPDFProcessor.init initialize_converter
  cases hO : c.ocr_enabled with
  | false => simp [hO, d1, d2, d3, Except.map]
  | true =>
    rcases hocr with hoff | hin
    · rw [hO] at hoff
      exact Bool.noConfusion hoff
    · simp only [List.mem_cons, List.not_mem_nil, or_false] at hin
      rcases hin with h1 | h1 | h1 <;> simp [hO, h1, d1, d2, d3, Except.map]

/-- C6: on a path that validates, when the converter and both exports
succeed (with nonempty markdown) and `stat` succeeds, `process` returns a
success result carrying the exported markdown and JSON, no error message,
and a metadata mapping with the keys file_name, file_size, num_pages,
file_extension, file_path and confidence_score. -/
theorem process_success_shape (w : World) (p : DoclingPDFProcessor) (fp : String)
    (r : DoclingResult) (mode : ImageRefMode) (md js : String) (sz : Nat)
    (hv : DoclingPDFProcessor.validate_file w fp = true)
    (hc : w.convert p._converter fp = .ok r)
    (hm : ImageRefMode.ofString p._config.image_export_mode = .ok mode)
    (hmd : r.document.markdownExport mode = .ok md)
    (hne : md ≠ "")
    (hjs : r.document.jsonExport = .ok js)
    (hsz : w.statSize fp = .ok sz) :
    (DoclingPDFProcessor.process w p fp).success = true ∧
    (DoclingPDFProcessor.process w p fp).content = md ∧ md ≠ "" ∧
    (DoclingPDFProcessor.process w p fp).json_content = js ∧
    (DoclingPDFProcessor.process w p fp).error_message = none ∧
    (DoclingPDFProcessor.process w p fp).file_path = fp ∧
    "file_name" ∈ ((DoclingPDFProcessor.process w p fp).metadata).map Prod.fst ∧
    "file_size" ∈ ((DoclingPDFProcessor.process w p fp).metadata).map Prod.fst ∧
    "num_pages" ∈ ((DoclingPDFProcessor.process w p fp).metadata).map Prod.fst ∧
    "file_extension" ∈ ((DoclingPDFProcessor.process w p fp).metadata).map Prod.fst ∧
    "file_path" ∈ ((DoclingPDFProcessor.process w p fp).metadata).map Prod.fst ∧
    "confidence_score" ∈ ((DoclingPDFProcessor.process w p fp).metadata).map Prod.fst := by
  obtain ⟨m, hm2, hk1, hk2, hk3, hk4, hk5, hk6⟩ :
      ∃ m, extract_metadata w r fp = .ok m ∧
        "file_name" ∈ m.map Prod.fst ∧ "file_size" ∈ m.map Prod.fst ∧
        "num_pages" ∈ m.map Prod.fst ∧ "file_extension" ∈ m.map Prod.fst ∧
        "file_path" ∈ m.map Prod.fst ∧ "confidence_score" ∈ m.map Prod.fst := by
    unfold extract_metadata
    rw [hsz]
    cases r.document.docMetadata
    · exact ⟨_, rfl, by simp, by simp, by simp, by simp, by simp, by simp⟩
    · exact ⟨_, rfl, by simp, by simp, by simp, by simp, by simp, by simp⟩
  have hrun : DoclingPDFProcessor.process w p fp =
      { success := true, content := md, json_content := js, metadata := m,
        error_message := none, file_path := fp } := by
    unfold DoclingPDFProcessor.process processBody
    simp [hv, hc, hm, hmd, hjs, hm2]
  rw [hrun]
  exact ⟨rfl, rfl, hne, rfl, rfl, rfl, hk1, hk2, hk3, hk4, hk5, hk6⟩

/-- Converter value produced by `_initialize_converter` on the default
config. -/
def convDef : DocumentConverter :=
  { pdf_format_option := { pipeline_options := {
      do_table_structure := true
      do_ocr := false
      generate_page_images := true
      do_cell_matching := true
      document_timeout := 300
      do_code_enrichment := false
      do_formula_enrichment := false
      do_picture_classification := false
      do_picture_description := false
      accelerator_options := { num_threads := 4, device := AcceleratorDevice.CPU }
      ocr_options := none } } }

/-- A processor built with the default config. -/
def pDef : DoclingPDFProcessor := { _config := {}, _converter := convDef }

/-- Sample exception raised by an external call. -/
def eBoom : PyError := { kind := "RuntimeError", msg := "boom", traceback := "tb" }

/-- Sample converted document used by success-path witnesses. -/
def docW : DoclingDocument :=
  { markdownExport := fun _ => .ok "# T", jsonExport := .ok "null",
    pageCount := some 2, docMetadata := none }

/-- Sample conversion result used by success-path witnesses. -/
def resW : DoclingResult := { document := docW, confidence := none }

/-- World where every path exists as both file and directory, conversion
succeeds and the glob finds two PDFs. -/
def wOk : World :=
  { pathExists := fun _ => true, isFile := fun _ => true, isDir := fun _ => true,
    statSize := fun _ => .ok 10, pdfGlob := fun _ => ["d/a.pdf", "d/b.pdf"],
    convert := fun _ _ => .ok resW }

/-- `wOk` with the glob enumeration order reversed. -/
def wOkRev : World := { wOk with pdfGlob := fun _ => ["d/b.pdf", "d/a.pdf"] }

/-- World where files validate but every external call raises. -/
def wErr : World :=
  { pathExists := fun _ => true, isFile := fun _ => true, isDir := fun _ => false,
    statSize := fun _ => .error eBoom, pdfGlob := fun _ => [],
    convert := fun _ _ => .error eBoom }

/-- World where nothing exists. -/
def wNone : World :=
  { pathExists := fun _ => false, isFile := fun _ => false, isDir := fun _ => false,
    statSize := fun _ => .error eBoom, pdfGlob := fun _ => [],
    convert := fun _ _ => .error eBoom }

/-- Config with OCR enabled and an unrecognized OCR engine. -/
def cBadEngineOn : DocumentConfig := { ocr_enabled := true, ocr_engine := "easyocr" }

/-- Config with OCR disabled and an unrecognized OCR engine. -/
def cBadEngineOff : DocumentConfig := { ocr_engine := "easyocr" }

/-- Config with an unrecognized accelerator device only. -/
def cBadDevice : DocumentConfig := { accelerator_device := "tpu" }

/-- Config with an unrecognized device and an unrecognized engine with OCR
enabled. -/
def cBadBoth : DocumentConfig :=
  { accelerator_device := "tpu", ocr_enabled := true, ocr_engine := "zzz" }

/-- Processor resulting from constructing with `cBadEngineOff`. -/
def pBadEngineOff : DoclingPDFProcessor :=
  { _config := cBadEngineOff, _converter := convDef }

/-- The `ValueError` raised for engine "easyocr". -/
def eBadEngine : PyError := PyError.valueError
  ("Unknown OCR engine: easyocr. Supported: rapidocr, tesserocr, tesseract")

/-- C3 counterexample: a config whose OCR engine name is unrecognized but
whose `ocr_enabled` is false is accepted at construction — the engine check
only runs when OCR is enabled, so the claim as stated is false. -/
theorem construction_accepts_unknown_engine_when_ocr_disabled :
    lowerStr cBadEngineOff.ocr_engine ∉ (["rapidocr", "tesserocr", "tesseract"] : List String) ∧
    DoclingPDFProcessor.init (some cBadEngineOff) = .ok pBadEngineOff := by
  constructor
  · decide
  · rfl

/-- C10 counterexample: a config with an unrecognized accelerator device
can still fail construction (via the OCR engine check), so "construction
does not fail" does not hold for every such config. -/
theorem construction_fails_despite_unknown_device :
    lowerStr cBadBoth.accelerator_device ∉ (["auto", "cpu", "gpu"] : List String) ∧
    DoclingPDFProcessor.init (some cBadBoth) = .error (PyError.valueError
      ("Unknown OCR engine: zzz. Supported: rapidocr, tesserocr, tesseract")) := by
  constructor
  · decide
  · rfl

/-- Witness for C1 at a world whose conversion call raises `eBoom`. -/
theorem process_catches_all_exceptions_witness :
    processBody wErr pDef "a.pdf" = .error eBoom ∧
    DoclingPDFProcessor.process wErr pDef "a.pdf" =
      { success := false, content := "", json_content := "", metadata := [],
        error_message := some ("Error processing " ++ "a.pdf" ++ ": " ++ eBoom.msg
          ++ "\nTraceback: " ++ eBoom.traceback),
        file_path := "a.pdf" } :=
  ⟨rfl, process_catches_all_exceptions wErr pDef "a.pdf" eBoom rfl⟩

/-- Witness for C2 at a world where nothing exists. -/
theorem validate_file_pure_and_invalid_branch_witness :
    (DoclingPDFProcessor.validate_file wNone "x.txt" = true ↔
      (wNone.pathExists "x.txt" = true ∧ wNone.isFile "x.txt" = true ∧
        lowerStr (pathSuffix "x.txt") = ".pdf")) ∧
    (DoclingPDFProcessor.process wNone pDef "x.txt" =
        { success := false, content := "", json_content := "", metadata := [],
          error_message := some "Invalid file", file_path := "x.txt" }
      ↔ DoclingPDFProcessor.validate_file wNone "x.txt" = false) :=
  validate_file_pure_and_invalid_branch wNone pDef "x.txt"

/-- Witness for C4 on a directory with two globbed PDFs. -/
theorem process_directory_count_witness :
    DoclingPDFProcessor.process_directory wOk pDef "d"
      = .ok ((wOk.pdfGlob "d").map (fun f => DoclingPDFProcessor.process wOk pDef f)) ∧
    ((wOk.pdfGlob "d").map (fun f => DoclingPDFProcessor.process wOk pDef f)).length
      = (wOk.pdfGlob "d").length ∧
    ((wOkRev.pdfGlob "d").map (fun f => DoclingPDFProcessor.process wOkRev pDef f)).length
      = ((wOk.pdfGlob "d").map (fun f => DoclingPDFProcessor.process wOk pDef f)).length :=
  ⟨(process_directory_count wOk pDef "d" rfl rfl).1,
   (process_directory_count wOk pDef "d" rfl rfl).2.1 _
     (process_directory_count wOk pDef "d" rfl rfl).1,
   (process_directory_count wOk pDef "d" rfl rfl).2.2 wOkRev pDef "d" rfl rfl (by decide)
     _ _ (process_directory_count wOk pDef "d" rfl rfl).1
     (process_directory_count wOkRev pDef "d" rfl rfl).1⟩

/-- Witness for C5 on a missing directory. -/
theorem process_directory_raises_witness :
    DoclingPDFProcessor.process_directory wNone pDef "nodir" =
      .error (PyError.valueError
        ("Directory " ++ "nodir" ++ " does not exist or is not a directory")) :=
  (process_directory_raises wNone pDef "nodir").1 (by decide)

/-- Witness for C6 on a validating PDF path with a successful conversion. -/
theorem process_success_shape_witness :
    DoclingPDFProcessor.validate_file wOk "a.pdf" = true ∧
    ((DoclingPDFProcessor.process wOk pDef "a.pdf").success = true ∧
     (DoclingPDFProcessor.process wOk pDef "a.pdf").content = "# T" ∧
     ("# T" : String) ≠ "" ∧
     (DoclingPDFProcessor.process wOk pDef "a.pdf").json_content = "null" ∧
     (DoclingPDFProcessor.process wOk pDef "a.pdf").error_message = none ∧
     (DoclingPDFProcessor.process wOk pDef "a.pdf").file_path = "a.pdf" ∧
     "file_name" ∈ ((DoclingPDFProcessor.process wOk pDef "a.pdf").metadata).map Prod.fst ∧
     "file_size" ∈ ((DoclingPDFProcessor.process wOk pDef "a.pdf").metadata).map Prod.fst ∧
     "num_pages" ∈ ((DoclingPDFProcessor.process wOk pDef "a.pdf").metadata).map Prod.fst ∧
     "file_extension" ∈ ((DoclingPDFProcessor.process wOk pDef "a.pdf").metadata).map Prod.fst ∧
     "file_path" ∈ ((DoclingPDFProcessor.process wOk pDef "a.pdf").metadata).map Prod.fst ∧
     "confidence_score" ∈ ((DoclingPDFProcessor.process wOk pDef "a.pdf").metadata).map Prod.fst) :=
  ⟨rfl, process_success_shape wOk pDef "a.pdf" resW ImageRefMode.embedded "# T" "null" 10
    rfl rfl rfl rfl (by decide) rfl rfl⟩

/-- Witness for C7 at the default config. -/
theorem config_round_trip_witness :
    DoclingPDFProcessor.init (some ({} : DocumentConfig)) = .ok pDef ∧
    DoclingPDFProcessor.get_config pDef = {} ∧
    DoclingPDFProcessor.get_config
      (DoclingPDFProcessor.update_config pDef ({} : DocumentConfig)).1 = {} :=
  ⟨rfl, (config_round_trip {} pDef rfl).1, (config_round_trip {} pDef rfl).2 pDef⟩

/-- Witness for C8 at a rejected OCR config. -/
theorem update_config_not_atomic_witness :
    initialize_converter cBadEngineOn = .error eBadEngine ∧
    (DoclingPDFProcessor.update_config pDef cBadEngineOn =
        ({ _config := cBadEngineOn, _converter := pDef._converter }, some eBadEngine) ∧
      DoclingPDFProcessor.get_config (DoclingPDFProcessor.update_config pDef cBadEngineOn).1
        = cBadEngineOn ∧
      (DoclingPDFProcessor.update_config pDef cBadEngineOn).1._converter = pDef._converter) :=
  ⟨rfl, update_config_not_atomic pDef cBadEngineOn eBadEngine rfl⟩

/-- Witness for C9's invariant at a concrete call. -/
theorem process_result_invariant_witness :
    resultInv (DoclingPDFProcessor.process wNone pDef "x") "x" :=
  (process_result_invariant wNone pDef "x" "d" none).1

/-- Witness for the amended C3 at engine "easyocr" with OCR enabled. -/
theorem construction_rejects_unknown_engine_witness :
    cBadEngineOn.ocr_enabled = true ∧
    lowerStr cBadEngineOn.ocr_engine ∉ (["rapidocr", "tesserocr", "tesseract"] : List String) ∧
    DoclingPDFProcessor.init (some cBadEngineOn) = .error (PyError.valueError
      ("Unknown OCR engine: " ++ lowerStr cBadEngineOn.ocr_engine
        ++ ". Supported: rapidocr, tesserocr, tesseract")) :=
  ⟨rfl, by decide,
   construction_rejects_unknown_engine_when_ocr_enabled cBadEngineOn rfl (by decide)⟩

/-- Witness for the amended C10 at device "tpu" with OCR disabled. -/
theorem unknown_device_falls_back_witness :
    lowerStr cBadDevice.accelerator_device ∉ (["auto", "cpu", "gpu"] : List String) ∧
    Except.map (fun p : DoclingPDFProcessor =>
        p._converter.pdf_format_option.pipeline_options.accelerator_options.device)
      (DoclingPDFProcessor.init (some cBadDevice)) = .ok AcceleratorDevice.AUTO :=
  ⟨by decide, unknown_device_falls_back_to_auto cBadDevice (by decide) (Or.inl rfl)⟩
